import Mathlib

/-!
Shallow embedding of the smart-home program `práctica3.py`: an abstract
class `Dispositivo` with three concrete subclasses (`LuzInteligente`,
`CamaraSeguridad`, `SensorMovimiento`), a composing class
`CasaInteligente`, and one automation scene `ejecutar_escena`.

Randomness is modelled by explicit inputs: a natural number `r` stands
for one draw of the random source, `randint a b r` models
`random.randint(a, b)` (surjective onto `[a, b]`), and the boolean
`r % 2 == 0` models `random.choice([True, False])`.  Printing is
modelled by returning the list of emitted lines.
-/

namespace Practica3

/-- Model of `random.randint a b`: for any draw `r`, a value in `[a, b]`. -/
def randint (a b r : Nat) : Nat := a + r % (b - a + 1)

/-- The device state space: one constructor per concrete subclass of the
abstract class `Dispositivo`, carrying the mangled-private common fields
(`__id_dispositivo`, `__estado`) and the variant-specific public field. -/
inductive Dispositivo : Type where
  | luz (id_dispositivo : Nat) (estado : Bool) (intensidad : Nat)
  | camara (id_dispositivo : Nat) (estado : Bool) (grabando : Bool)
  | sensor (id_dispositivo : Nat) (estado : Bool) (movimiento_detectado : Bool)
deriving DecidableEq

namespace Dispositivo

/-- Reader for the private field `__id_dispositivo`. -/
def obtener_id : Dispositivo → Nat
  | .luz i _ _ => i
  | .camara i _ _ => i
  | .sensor i _ _ => i

/-- The private field `__estado` (shared by all variants). -/
def estado : Dispositivo → Bool
  | .luz _ e _ => e
  | .camara _ e _ => e
  | .sensor _ e _ => e

/-- Method `obtener_estado`: "Encendido" if `__estado` else "Apagado". -/
def obtener_estado (d : Dispositivo) : String :=
  if d.estado then "Encendido" else "Apagado"

/-- Method `cambiar_estado(nuevo_estado)`: overwrites `__estado`, leaving
the id and the variant-specific field alone. -/
def cambiar_estado : Dispositivo → Bool → Dispositivo
  | .luz i _ n, b => .luz i b n
  | .camara i _ g, b => .camara i b g
  | .sensor i _ m, b => .sensor i b m

/-- Accessor for the public field `intensidad` of a `LuzInteligente`
(`0` on the other variants, which never carry it). -/
def intensidad : Dispositivo → Nat
  | .luz _ _ n => n
  | _ => 0

/-- Accessor for the public field `grabando` of a `CamaraSeguridad`
(`false` on the other variants, which never carry it). -/
def grabando : Dispositivo → Bool
  | .camara _ _ g => g
  | _ => false

/-- Accessor for the public field `movimiento_detectado` of a
`SensorMovimiento` (`false` on the other variants). -/
def movimiento_detectado : Dispositivo → Bool
  | .sensor _ _ m => m
  | _ => false

/-- Method `encender`, per subclass: each calls `cambiar_estado True` and
then updates its own field (`intensidad = random.randint(30, 100)`,
`grabando = True`, `movimiento_detectado = random.choice([True, False])`).
The draw of the random source is the explicit input `r`. -/
def encender (d : Dispositivo) (r : Nat) : Dispositivo :=
  match d.cambiar_estado true with
  | .luz i e _ => .luz i e (randint 30 100 r)
  | .camara i e _ => .camara i e true
  | .sensor i e _ => .sensor i e (r % 2 == 0)

/-- Method `apagar`, per subclass: each calls `cambiar_estado False` and
resets its own field (`intensidad = 0`, `grabando = False`,
`movimiento_detectado = False`). -/
def apagar (d : Dispositivo) : Dispositivo :=
  match d.cambiar_estado false with
  | .luz i e _ => .luz i e 0
  | .camara i e _ => .camara i e false
  | .sensor i e _ => .sensor i e false

/-- Python rendering of a boolean. -/
def pyBool (b : Bool) : String := if b then "True" else "False"

/-- Method `mostrar_datos`, per subclass: the formatted status line. -/
def mostrar_datos : Dispositivo → String
  | .luz i e n =>
      "[LuzInteligente #" ++ toString i ++ "] Estado: "
        ++ (if e then "Encendido" else "Apagado")
        ++ " | Intensidad: " ++ toString n ++ "%"
  | .camara i e g =>
      "[CamaraSeguridad #" ++ toString i ++ "] Estado: "
        ++ (if e then "Encendido" else "Apagado")
        ++ " | Grabando: " ++ pyBool g
  | .sensor i e m =>
      "[SensorMovimiento #" ++ toString i ++ "] Estado: "
        ++ (if e then "Encendido" else "Apagado")
        ++ " | Movimiento detectado: " ++ pyBool m

/-- `isinstance(d, SensorMovimiento)`. -/
def es_sensor : Dispositivo → Bool
  | .sensor _ _ _ => true
  | _ => false

/-- `isinstance(d, (LuzInteligente, CamaraSeguridad))`. -/
def es_luz_o_camara : Dispositivo → Bool
  | .luz _ _ _ => true
  | .camara _ _ _ => true
  | _ => false

end Dispositivo

/-- Constructor `LuzInteligente(id)`: `super().__init__` sets
`__estado = False`, then `intensidad = 0`. -/
def LuzInteligente.init (i : Nat) : Dispositivo := .luz i false 0

/-- Constructor `CamaraSeguridad(id)`: `__estado = False`,
`grabando = False`. -/
def CamaraSeguridad.init (i : Nat) : Dispositivo := .camara i false false

/-- Constructor `SensorMovimiento(id)`: `__estado = False`,
`movimiento_detectado = False`. -/
def SensorMovimiento.init (i : Nat) : Dispositivo := .sensor i false false

/-- The composing class: an ordered list of devices. -/
structure CasaInteligente : Type where
  dispositivos : List Dispositivo
deriving DecidableEq

/-- Constructor `CasaInteligente()`: empty device list. -/
def CasaInteligente.init : CasaInteligente := ⟨[]⟩

/-- Method `agregar_dispositivo`: appends to the list. -/
def CasaInteligente.agregar_dispositivo (c : CasaInteligente)
    (d : Dispositivo) : CasaInteligente :=
  ⟨c.dispositivos ++ [d]⟩

/-- The fixed header line emitted by `mostrar_todos`. -/
def encabezado : String := "\n📋 ESTADO ACTUAL DE LOS DISPOSITIVOS:"

/-- Method `mostrar_todos`: the list of printed lines, the header
followed by one `mostrar_datos` line per device in insertion order
(`print("  ", x)` joins with a space, hence the three-space indent). -/
def CasaInteligente.mostrar_todos (c : CasaInteligente) : List String :=
  encabezado :: c.dispositivos.map (fun d => "   " ++ d.mostrar_datos)

/-- The generator condition in `ejecutar_escena`:
`isinstance(d, SensorMovimiento) and d.movimiento_detectado`. -/
def detecta_movimiento (d : Dispositivo) : Bool :=
  d.es_sensor && d.movimiento_detectado

/-- `hay_movimiento = any(isinstance(d, SensorMovimiento) and
d.movimiento_detectado for d in self.dispositivos)`. -/
def CasaInteligente.hay_movimiento (c : CasaInteligente) : Bool :=
  c.dispositivos.any detecta_movimiento

/-- The mutation loop of `ejecutar_escena`: walk the device list in
order and call `encender` on every `LuzInteligente` or
`CamaraSeguridad`; the device at position `j` of the walk receives the
random draw `rs (i + j)`, where `i` numbers the draws already made. -/
def escenaLoop (rs : Nat → Nat) : Nat → List Dispositivo → List Dispositivo
  | _, [] => []
  | i, d :: ds =>
      (if d.es_luz_o_camara then d.encender (rs i) else d)
        :: escenaLoop rs (i + 1) ds

/-- Method `ejecutar_escena`: returns the updated house and the list of
printed lines.  `hay_movimiento` is computed once, before any device is
touched; if it holds, every light and camera is powered on; otherwise
nothing is mutated. -/
def CasaInteligente.ejecutar_escena (c : CasaInteligente) (rs : Nat → Nat) :
    CasaInteligente × List String :=
  if c.hay_movimiento then
    (⟨escenaLoop rs 0 c.dispositivos⟩,
     ["\n🤖 Ejecutando escena automática...\n",
      "🚨 Movimiento detectado → Encendiendo luces y cámaras..."])
  else
    (c,
     ["\n🤖 Ejecutando escena automática...\n",
      "✅ No se detectó movimiento. La casa permanece en modo reposo."])

/-- The public method surface of `Dispositivo` that Python exposes on
every constructed device: the two power operations, the state setter
`cambiar_estado`, and the three read-only methods. -/
inductive Op : Type where
  | encender (r : Nat)
  | apagar
  | cambiar_estado (b : Bool)
  | obtener_estado
  | obtener_id
  | mostrar_datos
deriving DecidableEq

/-- The state transformer of each public method (the read-only methods
return the device unchanged). -/
def aplicar : Op → Dispositivo → Dispositivo
  | .encender r, d => d.encender r
  | .apagar, d => d.apagar
  | .cambiar_estado b, d => d.cambiar_estado b
  | .obtener_estado, d => d
  | .obtener_id, d => d
  | .mostrar_datos, d => d

/-- Whether an operation is one of the two power operations
(`powerOn` / `powerOff`). -/
def es_operacion_de_poder : Op → Bool
  | .encender _ => true
  | .apagar => true
  | _ => false

/-- Whether an operation writes the private `__estado` field: the two
power operations and the setter `cambiar_estado` they both call. -/
def escribe_estado : Op → Bool
  | .encender _ => true
  | .apagar => true
  | .cambiar_estado _ => true
  | _ => false

/-- Whether an operation belongs to the abstract Device contract of the
specification (`powerOn`, `powerOff`, `describe`, `status`); the internal
setter `cambiar_estado` is not part of that contract. -/
def es_operacion_contrato : Op → Bool
  | .cambiar_estado _ => false
  | _ => true

/-- Folding a list of operations over a device, first operation first. -/
def aplicar_lista (ops : List Op) (d : Dispositivo) : Dispositivo :=
  ops.foldl (fun d op => aplicar op d) d

/-- The camera invariant of the specification: on a `CamaraSeguridad`,
`grabando` equals `__estado`; vacuous on the other variants. -/
def camara_invariante : Dispositivo → Bool
  | .camara _ e g => g == e
  | _ => true

/-- The off-values of the variant-specific fields: `intensidad = 0`,
`grabando = False`, `movimiento_detectado = False`. -/
def valores_apagado : Dispositivo → Bool
  | .luz _ _ n => n == 0
  | .camara _ _ g => g == false
  | .sensor _ _ m => m == false

/-- The class names of the program, for modelling instantiation. -/
inductive Clase : Type where
  | dispositivo
  | luzInteligente
  | camaraSeguridad
  | sensorMovimiento
deriving DecidableEq

/-- The abstract methods left unimplemented by each class: `Dispositivo`
declares `encender`, `apagar` and `mostrar_datos` with `@abstractmethod`;
each subclass overrides all three. -/
def metodos_abstractos : Clase → List String
  | .dispositivo => ["encender", "apagar", "mostrar_datos"]
  | .luzInteligente => []
  | .camaraSeguridad => []
  | .sensorMovimiento => []

/-- Calling a class name with an id, under Python ABC semantics: if the
class still has abstract methods, construction raises `TypeError`;
otherwise the subclass `__init__` runs and yields a device. -/
def instanciar (c : Clase) (i : Nat) : Except String Dispositivo :=
  match metodos_abstractos c, c with
  | _ :: _, _ =>
      .error "TypeError: cannot instantiate abstract class"
  | [], .dispositivo =>
      .error "TypeError: cannot instantiate abstract class"
  | [], .luzInteligente => .ok (LuzInteligente.init i)
  | [], .camaraSeguridad => .ok (CamaraSeguridad.init i)
  | [], .sensorMovimiento => .ok (SensorMovimiento.init i)

/-- Whether an instantiation attempt produced a usable device object. -/
def construccion_exitosa : Except String Dispositivo → Bool
  | .ok _ => true
  | .error _ => false

/-! ## Helper lemmas -/

/-- Indexing the scene loop: the device at position `j` is powered on
exactly when it is a light or a camera, with random draw `rs (i + j)`. -/
theorem escenaLoop_getElem (rs : Nat → Nat) (l : List Dispositivo) :
    ∀ (i j : Nat),
      (escenaLoop rs i l)[j]? =
        (l[j]?).map
          (fun d => if d.es_luz_o_camara then d.encender (rs (i + j)) else d) := by
  induction l with
  | nil => intro i j; simp [escenaLoop]
  | cons d ds ih =>
      intro i j
      cases j with
      | zero => simp [escenaLoop]
      | succ j =>
          have hij : i + 1 + j = i + (j + 1) := by omega
          simp [escenaLoop, ih (i + 1) j, hij]

/-- If no device satisfies the motion condition, `hay_movimiento` is
false. -/
theorem hay_movimiento_false_of (c : CasaInteligente)
    (h : ∀ d ∈ c.dispositivos, detecta_movimiento d = false) :
    c.hay_movimiento = false := by
  simp only [CasaInteligente.hay_movimiento, List.any_eq_false]
  intro d hd
  simp [h d hd]

/-- Per-index characterization of `ejecutar_escena`: the device at
position `i` is replaced by `encender` exactly when motion was detected
in the snapshot and that device is a light or a camera. -/
theorem ejecutar_escena_getElem (c : CasaInteligente) (rs : Nat → Nat)
    (i : Nat) (d : Dispositivo) (h : c.dispositivos[i]? = some d) :
    ((c.ejecutar_escena rs).1).dispositivos[i]? =
      some (if c.hay_movimiento && d.es_luz_o_camara
            then d.encender (rs i) else d) := by
  unfold CasaInteligente.ejecutar_escena
  cases hm : c.hay_movimiento with
  | false => simp [hm, h]
  | true => simp [hm, escenaLoop_getElem rs c.dispositivos 0 i, h]

/-- The device-contract operations preserve the camera invariant. -/
theorem camara_invariante_aplicar (op : Op) (d : Dispositivo)
    (hop : es_operacion_contrato op = true)
    (h : camara_invariante d = true) :
    camara_invariante (aplicar op d) = true := by
  cases op <;> cases d <;>
    simp_all [aplicar, es_operacion_contrato, camara_invariante,
      Dispositivo.encender, Dispositivo.apagar, Dispositivo.cambiar_estado]

/-- Any sequence of device-contract operations preserves the camera
invariant. -/
theorem camara_invariante_lista : ∀ (ops : List Op) (d : Dispositivo),
    (∀ op ∈ ops, es_operacion_contrato op = true) →
    camara_invariante d = true →
    camara_invariante (aplicar_lista ops d) = true
  | [], _, _, h => by simpa [aplicar_lista] using h
  | op :: ops, d, hops, h => by
      have h1 := camara_invariante_aplicar op d (hops op (by simp)) h
      have h2 : ∀ o ∈ ops, es_operacion_contrato o = true := fun o ho =>
        hops o (by simp [ho])
      simpa [aplicar_lista] using
        camara_invariante_lista ops (aplicar op d) h2 h1

/-! ## Claim theorems -/

/-- C1: `ejecutar_escena` computes `hay_movimiento` as the OR over all
devices of (the device is a `SensorMovimiento` and its
`movimiento_detectado` is true); the device at each position of the
result is `encender` of the old device exactly when that snapshot was
true and the device is a `LuzInteligente` or a `CamaraSeguridad`
(whatever its power state), and is the old device unchanged otherwise. -/
theorem runScene_characterization (c : CasaInteligente) (rs : Nat → Nat) :
    (c.hay_movimiento = true ↔
      ∃ d ∈ c.dispositivos, d.es_sensor = true ∧ d.movimiento_detectado = true) ∧
    ∀ (i : Nat) (d : Dispositivo), c.dispositivos[i]? = some d →
      ((c.ejecutar_escena rs).1).dispositivos[i]? =
        some (if c.hay_movimiento && d.es_luz_o_camara
              then d.encender (rs i) else d) := by
  constructor
  · simp [CasaInteligente.hay_movimiento, List.any_eq_true,
      detecta_movimiento, Bool.and_eq_true]
  · intro i d h
    exact ejecutar_escena_getElem c rs i d h

/-- C1 witness: in a house holding a powered-on light and a detecting
sensor, the scene powers the light on with the next random draw. -/
theorem runScene_characterization_witness :
    ((⟨[Dispositivo.luz 1 true 50, Dispositivo.sensor 5 true true]⟩ :
        CasaInteligente).ejecutar_escena (fun _ => 3)).1.dispositivos[0]? =
      some (if (⟨[Dispositivo.luz 1 true 50, Dispositivo.sensor 5 true true]⟩ :
          CasaInteligente).hay_movimiento &&
          (Dispositivo.luz 1 true 50).es_luz_o_camara
        then (Dispositivo.luz 1 true 50).encender 3
        else Dispositivo.luz 1 true 50) :=
  (runScene_characterization
      ⟨[Dispositivo.luz 1 true 50, Dispositivo.sensor 5 true true]⟩
      (fun _ => 3)).2 0 (Dispositivo.luz 1 true 50) rfl

/-- C2: if no `SensorMovimiento` in the house has
`movimiento_detectado = true`, then `ejecutar_escena` leaves every
device unchanged (the returned house equals the input house). -/
theorem runScene_no_motion_frame (c : CasaInteligente) (rs : Nat → Nat)
    (h : ∀ d ∈ c.dispositivos, d.es_sensor = true →
      d.movimiento_detectado = false) :
    (c.ejecutar_escena rs).1 = c := by
  have hm : c.hay_movimiento = false := by
    apply hay_movimiento_false_of
    intro d hd
    unfold detecta_movimiento
    cases hs : d.es_sensor with
    | false => simp
    | true => simp [h d hd hs]
  simp [CasaInteligente.ejecutar_escena, hm]

/-- C2 witness: a house with one powered-on sensor that detected no
motion is returned unchanged by the scene. -/
theorem runScene_no_motion_frame_witness :
    ((⟨[Dispositivo.sensor 1 true false]⟩ :
        CasaInteligente).ejecutar_escena (fun _ => 0)).1 =
      ⟨[Dispositivo.sensor 1 true false]⟩ :=
  runScene_no_motion_frame ⟨[Dispositivo.sensor 1 true false]⟩
    (fun _ => 0) (by decide)

/-- C3 counterexample: the public method `cambiar_estado` also changes
the `__estado` (powered) field, and it is neither `encender` nor
`apagar`; so power operations are not the only operations that change
`powered`. -/
theorem cambiar_estado_changes_powered :
    (aplicar (Op.cambiar_estado true) (LuzInteligente.init 1)).estado = true ∧
    (LuzInteligente.init 1).estado = false ∧
    es_operacion_de_poder (Op.cambiar_estado true) = false := by
  decide

/-- C3 amended: the `__estado` field is never assigned directly; the
only public operations that change it are `encender`, `apagar`, and the
setter `cambiar_estado` through which both of them write it. -/
theorem estado_only_written_by_power_ops_or_setter (op : Op)
    (d : Dispositivo) (h : (aplicar op d).estado ≠ d.estado) :
    escribe_estado op = true := by
  cases op <;> simp_all [aplicar, escribe_estado]

/-- C3 witness: `cambiar_estado True` on a fresh light changes the
powered field, and it is one of the estado-writing operations. -/
theorem estado_only_written_witness :
    (aplicar (Op.cambiar_estado true) (LuzInteligente.init 1)).estado ≠
      (LuzInteligente.init 1).estado ∧
    escribe_estado (Op.cambiar_estado true) = true :=
  ⟨by decide, estado_only_written_by_power_ops_or_setter
      (Op.cambiar_estado true) (LuzInteligente.init 1) (by decide)⟩

/-- C4: on a `CamaraSeguridad`, `grabando` equals the powered field at
construction; `encender` sets both to true and `apagar` sets both to
false; and the invariant holds after any sequence of device-contract
operations applied to a fresh camera. -/
theorem camera_recording_eq_powered (i : Nat) (e g : Bool) (r : Nat)
    (ops : List Op)
    (hops : ∀ op ∈ ops, es_operacion_contrato op = true) :
    camara_invariante (CamaraSeguridad.init i) = true ∧
    (Dispositivo.camara i e g).encender r = Dispositivo.camara i true true ∧
    (Dispositivo.camara i e g).apagar = Dispositivo.camara i false false ∧
    camara_invariante (aplicar_lista ops (CamaraSeguridad.init i)) = true := by
  refine ⟨rfl, ?_, rfl, ?_⟩
  · cases e <;> cases g <;> rfl
  · exact camara_invariante_lista ops (CamaraSeguridad.init i) hops rfl

/-- C4 witness: the camera invariant after a concrete sequence of
contract operations on a fresh camera. -/
theorem camera_recording_eq_powered_witness :
    camara_invariante (CamaraSeguridad.init 3) = true ∧
    (Dispositivo.camara 3 false false).encender 7 =
      Dispositivo.camara 3 true true ∧
    (Dispositivo.camara 3 false false).apagar =
      Dispositivo.camara 3 false false ∧
    camara_invariante
      (aplicar_lista [Op.encender 7, Op.apagar, Op.encender 2]
        (CamaraSeguridad.init 3)) = true :=
  camera_recording_eq_powered 3 false false 7
    [Op.encender 7, Op.apagar, Op.encender 2] (by decide)

/-- C5: for every starting light state and every random draw, after
`encender` the light is powered and its `intensidad` lies in
`[30, 100]`; after `apagar` it is unpowered with `intensidad = 0`. -/
theorem light_powerOn_range (i : Nat) (e : Bool) (n r : Nat) :
    ((Dispositivo.luz i e n).encender r).estado = true ∧
    30 ≤ ((Dispositivo.luz i e n).encender r).intensidad ∧
    ((Dispositivo.luz i e n).encender r).intensidad ≤ 100 ∧
    (Dispositivo.luz i e n).apagar = Dispositivo.luz i false 0 := by
  have h1 : ((Dispositivo.luz i e n).encender r).intensidad = 30 + r % 71 :=
    rfl
  exact ⟨rfl, by omega, by omega, rfl⟩

/-- C6: for every device and starting state, `apagar` is idempotent,
and after `apagar` the status is "Apagado" and the variant field is at
its off-value. -/
theorem powerOff_idempotent (d : Dispositivo) :
    d.apagar.apagar = d.apagar ∧
    d.apagar.obtener_estado = "Apagado" ∧
    valores_apagado d.apagar = true := by
  cases d <;>
    simp [Dispositivo.apagar, Dispositivo.cambiar_estado,
      Dispositivo.obtener_estado, Dispositivo.estado, valores_apagado]

/-- C7: a house with no `SensorMovimiento` has `hay_movimiento = false`
and the scene mutates nothing, exactly as the empty house does; and
`mostrar_todos` on the empty house emits only the header line. -/
theorem empty_house_idle (c : CasaInteligente) (rs : Nat → Nat)
    (h : ∀ d ∈ c.dispositivos, d.es_sensor = false) :
    c.hay_movimiento = false ∧
    (c.ejecutar_escena rs).1 = c ∧
    CasaInteligente.init.hay_movimiento = false ∧
    CasaInteligente.init.mostrar_todos = [encabezado] := by
  have hm : c.hay_movimiento = false := by
    apply hay_movimiento_false_of
    intro d hd
    simp [detecta_movimiento, h d hd]
  refine ⟨hm, ?_, rfl, rfl⟩
  simp [CasaInteligente.ejecutar_escena, hm]

/-- C7 witness: the empty house itself. -/
theorem empty_house_idle_witness :
    CasaInteligente.init.hay_movimiento = false ∧
    (CasaInteligente.init.ejecutar_escena (fun _ => 0)).1 =
      CasaInteligente.init ∧
    CasaInteligente.init.hay_movimiento = false ∧
    CasaInteligente.init.mostrar_todos = [encabezado] :=
  empty_house_idle CasaInteligente.init (fun _ => 0) (by decide)

/-- C8: instantiating the abstract class `Dispositivo` directly is
rejected (a `TypeError`, no device object is produced), while each
concrete variant constructs successfully. -/
theorem abstract_device_rejected (i : Nat) :
    construccion_exitosa (instanciar Clase.dispositivo i) = false ∧
    instanciar Clase.dispositivo i =
      Except.error "TypeError: cannot instantiate abstract class" ∧
    construccion_exitosa (instanciar Clase.luzInteligente i) = true ∧
    construccion_exitosa (instanciar Clase.camaraSeguridad i) = true ∧
    construccion_exitosa (instanciar Clase.sensorMovimiento i) = true :=
  ⟨rfl, rfl, rfl, rfl, rfl⟩

/-- C9: every freshly constructed device is already in the
post-`apagar` state: `apagar` fixes it, its status is "Apagado", and
its variant field is at the off-value. -/
theorem fresh_device_is_powered_off (i : Nat) :
    (LuzInteligente.init i).apagar = LuzInteligente.init i ∧
    (CamaraSeguridad.init i).apagar = CamaraSeguridad.init i ∧
    (SensorMovimiento.init i).apagar = SensorMovimiento.init i ∧
    (LuzInteligente.init i).obtener_estado = "Apagado" ∧
    (CamaraSeguridad.init i).obtener_estado = "Apagado" ∧
    (SensorMovimiento.init i).obtener_estado = "Apagado" ∧
    valores_apagado (LuzInteligente.init i) = true ∧
    valores_apagado (CamaraSeguridad.init i) = true ∧
    valores_apagado (SensorMovimiento.init i) = true :=
  ⟨rfl, rfl, rfl, rfl, rfl, rfl, rfl, rfl, rfl⟩

/-- C10: `ejecutar_escena` never changes a `SensorMovimiento`: every
sensor occupies its old position in the result with its old state, even
when the scene fires. -/
theorem runScene_sensors_unchanged (c : CasaInteligente) (rs : Nat → Nat)
    (i : Nat) (d : Dispositivo) (h : c.dispositivos[i]? = some d)
    (hs : d.es_sensor = true) :
    ((c.ejecutar_escena rs).1).dispositivos[i]? = some d := by
  have hl : d.es_luz_o_camara = false := by
    cases d <;> simp_all [Dispositivo.es_sensor, Dispositivo.es_luz_o_camara]
  have hgoal := ejecutar_escena_getElem c rs i d h
  simpa [hl] using hgoal

/-- C10 witness: even a detecting sensor, in a house where the scene
fires, keeps its exact state. -/
theorem runScene_sensors_unchanged_witness :
    ((⟨[Dispositivo.sensor 5 true true]⟩ :
        CasaInteligente).ejecutar_escena (fun _ => 0)).1.dispositivos[0]? =
      some (Dispositivo.sensor 5 true true) :=
  runScene_sensors_unchanged ⟨[Dispositivo.sensor 5 true true]⟩
    (fun _ => 0) 0 (Dispositivo.sensor 5 true true) rfl rfl

end Practica3
